import Mathlib

/-
Verification development for the bot process lifecycle manager
(`bot_manager/process_manager.py`, `master_bot/database.py`, `app.py`).

The supervisor (`BotProcessManager`) keeps an in-memory Python dict
`running_processes : Dict[int, Popen]`, modelled here as an association
list with unique keys (`RunMap`).  OS-level nondeterminism (process
liveness, psutil lookups, signal delivery, database availability) is
passed in explicitly as environment records, so every operation is a
pure function from state and environment to a result record that also
carries the list of StatusRegistry writes that actually landed and the
list of process groups that were signalled.
-/

set_option autoImplicit false

namespace TgBotSaas

/--
What `process.poll()` does when called on a tracked handle at the moment
of the operation.  `alive` is Python `None`, `exited c` is an exit code.
`raises` models a poll call that throws: the discovered-process mock in
`_discover_running_processes` stores `'poll': lambda: None` in a class
dict, so `handle.poll()` binds the instance as first argument of a
zero-parameter lambda and raises `TypeError` instead of returning `None`.
-/
inductive PollRes where
  | alive : PollRes
  | exited (code : Int) : PollRes
  | raises : PollRes
  deriving DecidableEq, Repr

/--
A tracked process handle: `pid`, whether it came from the discovery scan
(`discovered`), and what its `poll()` currently does.  Both variants carry
a `pid` attribute, exactly as in the source (the discovery mock sets
`'pid': proc.info['pid']`), so `hasattr(process, 'pid')` is true for both.
-/
structure Handle where
  pid : Nat
  discovered : Bool
  poll : PollRes
  deriving DecidableEq, Repr

/-- The handle registered for a process found by the discovery scan:
`poll` raises (see `PollRes.raises`). -/
def discoveredHandle (pid : Nat) : Handle :=
  { pid := pid, discovered := true, poll := PollRes.raises }

/-- The map `running_processes : Dict[int, Popen]` as an association list. -/
abbrev RunMap := List (Int × Handle)

/-- First-match lookup, the semantics of `bot_id in running_processes`
followed by `running_processes[bot_id]`. -/
def dictLookup : RunMap → Int → Option Handle
  | [], _ => none
  | (k1, v) :: rest, k => if k1 = k then some v else dictLookup rest k

/-- Python dict assignment: overwrite in place if the key exists,
append otherwise. -/
def dictInsert : RunMap → Int → Handle → RunMap
  | [], k, v => [(k, v)]
  | (k1, v1) :: rest, k, v =>
    if k1 = k then (k, v) :: rest else (k1, v1) :: dictInsert rest k v

/-- Python `del running_processes[bot_id]`. -/
def dictDelete : RunMap → Int → RunMap
  | [], _ => []
  | (k1, v1) :: rest, k =>
    if k1 = k then dictDelete rest k else (k1, v1) :: dictDelete rest k

/-- The Python-dict invariant: keys are unique, so a bot id is tracked by
at most one handle. -/
def DictWF (m : RunMap) : Prop := (m.map Prod.fst).Nodup

instance (m : RunMap) : Decidable (DictWF m) := by
  unfold DictWF; infer_instance

/-- One StatusRegistry (MasterDatabase) write that actually landed. -/
inductive DbWrite where
  | status (botId : Int) (st : String) (errMsg : Option String) : DbWrite
  | processId (botId : Int) (pid : Nat) : DbWrite
  | configPath (botId : Int) : DbWrite
  | event (description : String) : DbWrite
  deriving DecidableEq, Repr

/--
A best-effort StatusRegistry write.  Every call site in the source is
wrapped in `try/except` (and `MasterDatabase.update_bot_status` itself
swallows exceptions), so a failing write produces no effect and no
exception; `dbFails` says whether the write failed.
-/
def tryWrite (dbFails : Bool) (w : DbWrite) : List DbWrite :=
  if dbFails then [] else [w]

/--
Environment for one `_start_bot_process` call: the config-file checks,
the smoke-test outcome (`none` models `TimeoutExpired` or another
exception, `some rc` an exit code), log-file creation, whether
`subprocess.Popen` itself raised `FileNotFoundError`, the new pid, and
the second at which the launched process exits (`none`: it outlives the
confirmation window).
-/
structure SpawnEnv where
  configExists : Bool
  configReadable : Bool
  smokeTest : Option Int
  logFilesOk : Bool
  popenOk : Bool
  newPid : Nat
  exitSecond : Option Nat
  deriving DecidableEq, Repr

/-- Whether the freshly launched process is alive when polled at second
`t` (it exits at `exitSecond`). -/
def aliveAtSecond (exitSecond : Option Nat) (t : Nat) : Bool :=
  match exitSecond with
  | none => true
  | some s => t < s

/-- The confirmation window of `_start_bot_process`: 15 polls, one every
2 seconds (`for i in range(15): await asyncio.sleep(2); process.poll()`),
so polls happen at seconds 2, 4, ..., 30. -/
def survivesWindow (exitSecond : Option Nat) : Bool :=
  (List.range 15).all (fun i => aliveAtSecond exitSecond (2 * (i + 1)))

/--
The launch part of `_start_bot_process`, after the already-running check:
config existence and readability checks, smoke test (`--help-test`) gate,
log-file creation, `Popen`, the immediate dead-on-arrival poll (second 0),
and the 30-second confirmation window.  Only survival of the whole window
registers the handle and returns the pid.
-/
def startFresh (running : RunMap) (botId : Int) (env : SpawnEnv) :
    Option Nat × RunMap :=
  if !env.configExists then (none, running)
  else if !env.configReadable then (none, running)
  else
    match env.smokeTest with
    | none => (none, running)
    | some rc =>
      if rc ≠ 0 then (none, running)
      else if !env.logFilesOk then (none, running)
      else if !env.popenOk then (none, running)
      else if !aliveAtSecond env.exitSecond 0 then (none, running)
      else if !survivesWindow env.exitSecond then (none, running)
      else (some env.newPid,
            dictInsert running botId
              { pid := env.newPid, discovered := false, poll := PollRes.alive })

/--
The function `_start_bot_process`: if the bot id is already tracked and its handle
polls alive, return the existing pid and change nothing; if the existing
handle polls as exited, drop it and fall through to a fresh launch; if
its poll raises, the exception reaches the outer handler and the call
returns `None` with the map unchanged.  Untracked ids go straight to the
fresh launch.
-/
def startBotProcess (running : RunMap) (botId : Int) (env : SpawnEnv) :
    Option Nat × RunMap :=
  match dictLookup running botId with
  | some h =>
    match h.poll with
    | PollRes.alive => (some h.pid, running)
    | PollRes.exited _ => startFresh (dictDelete running botId) botId env
    | PollRes.raises => (none, running)
  | none => startFresh running botId env

/--
How the OS side of `stop_bot` goes for a tracked handle:
`graceful` — a termination signal was delivered and `wait(timeout=10)`
returned; `forced` — the wait timed out, the process group was killed and
the unconditional wait returned; `raisedBeforeSignal` — both the
`os.killpg(..., SIGTERM)` attempt and the fallback `process.terminate()`
raised, so nothing was signalled and the exception reached the outer
handler; `raisedAfterSignal` — the signal was delivered but the wait
raised something other than `TimeoutExpired`.
-/
inductive StopOsOutcome where
  | graceful : StopOsOutcome
  | forced : StopOsOutcome
  | raisedBeforeSignal : StopOsOutcome
  | raisedAfterSignal : StopOsOutcome
  deriving DecidableEq, Repr

structure StopResult where
  ok : Bool
  running : RunMap
  writes : List DbWrite
  signalled : List Int
  deriving DecidableEq, Repr

/--
The function `stop_bot`: a bot with no tracked handle is already stopped (returns
`True`, no effects).  Otherwise the handle is signalled and awaited; on
either the graceful or the forced path the entry is deleted and a
best-effort `stopped` status is written; if an exception escapes to the
outer handler the entry stays and the call returns `False`.
-/
def stopBot (running : RunMap) (botId : Int) (os : StopOsOutcome)
    (dbFails : Bool) : StopResult :=
  match dictLookup running botId with
  | none => { ok := true, running := running, writes := [], signalled := [] }
  | some _ =>
    match os with
    | StopOsOutcome.raisedBeforeSignal =>
      { ok := false, running := running, writes := [], signalled := [] }
    | StopOsOutcome.raisedAfterSignal =>
      { ok := false, running := running, writes := [], signalled := [botId] }
    | _ =>
      { ok := true
        running := dictDelete running botId
        writes := tryWrite dbFails (DbWrite.status botId "stopped" none)
        signalled := [botId] }

structure RestartResult where
  ok : Bool
  running : RunMap
  writes : List DbWrite
  signalled : List Int
  spawnAttempted : Bool
  deriving DecidableEq, Repr

structure RestartEnv where
  stopOs : StopOsOutcome
  spawn : SpawnEnv
  deriving DecidableEq, Repr

/--
The function `restart_bot`: always run `stop_bot` first (its return value is ignored),
sleep, then check `bot_configs_dir / f"bot_{id}_config.json"`; when the
config file is missing, write a best-effort `error` status
(`'Config file not found'`) and return `False` without launching;
otherwise call `_start_bot_process` and persist `active` plus the new
process id on success, or an `error` status on failure.  Both the restart
check and `_start_bot_process` read the same file, so both see
`env.spawn.configExists`.
-/
def restartBot (running : RunMap) (botId : Int) (env : RestartEnv)
    (dbFails : Bool) : RestartResult :=
  let s := stopBot running botId env.stopOs dbFails
  if !env.spawn.configExists then
    { ok := false
      running := s.running
      writes := s.writes ++
        tryWrite dbFails (DbWrite.status botId "error" (some "Config file not found"))
      signalled := s.signalled
      spawnAttempted := false }
  else
    let p := startBotProcess s.running botId env.spawn
    match p.1 with
    | some pid =>
      { ok := true
        running := p.2
        writes := s.writes ++ tryWrite dbFails (DbWrite.processId botId pid) ++
          tryWrite dbFails (DbWrite.status botId "active" none)
        signalled := s.signalled
        spawnAttempted := true }
    | none =>
      { ok := false
        running := p.2
        writes := s.writes ++
          tryWrite dbFails (DbWrite.status botId "error" (some "Failed to restart process"))
        signalled := s.signalled
        spawnAttempted := true }

/--
What the psutil inspection in `check_bot_health` observes for a handle
whose poll reported alive: `noSuch` — `psutil.Process(pid)` (or a later
call on it) raised `NoSuchProcess`; `procStatus zombie memMB` — the
process exists with the given zombie flag and resident memory (MB);
`raisesOther` — some other exception (e.g. `AccessDenied`) escaped to the
outer handler.
-/
inductive PsLookup where
  | noSuch : PsLookup
  | procStatus (zombie : Bool) (memMB : Nat) : PsLookup
  | raisesOther : PsLookup
  deriving DecidableEq, Repr

structure HealthResult where
  healthy : Bool
  running : RunMap
  writes : List DbWrite
  deriving DecidableEq, Repr

/--
The function `check_bot_health`: untracked ids are unhealthy with no effects.  A poll
that raises reaches the outer handler: unhealthy, no effects.  A poll
reporting exited deletes the entry and writes a best-effort
`'Process terminated unexpectedly'` error.  Otherwise psutil inspects the
pid (both handle variants have a `pid` attribute, so the
`hasattr(process, 'pid')` test cannot distinguish them): `NoSuchProcess`
deletes the entry and writes `'Process no longer exists'`; a zombie
returns unhealthy with no deletion and no write; a live non-zombie
process gets a best-effort `active` write (the memory figure is only
logged) and is healthy.
-/
def checkBotHealth (running : RunMap) (botId : Int) (ps : PsLookup)
    (dbFails : Bool) : HealthResult :=
  match dictLookup running botId with
  | none => { healthy := false, running := running, writes := [] }
  | some h =>
    match h.poll with
    | PollRes.raises => { healthy := false, running := running, writes := [] }
    | PollRes.exited _ =>
      { healthy := false
        running := dictDelete running botId
        writes := tryWrite dbFails
          (DbWrite.status botId "error" (some "Process terminated unexpectedly")) }
    | PollRes.alive =>
      match ps with
      | PsLookup.noSuch =>
        { healthy := false
          running := dictDelete running botId
          writes := tryWrite dbFails
            (DbWrite.status botId "error" (some "Process no longer exists")) }
      | PsLookup.procStatus zombie _ =>
        if zombie then { healthy := false, running := running, writes := [] }
        else
          { healthy := true
            running := running
            writes := tryWrite dbFails (DbWrite.status botId "active" none) }
      | PsLookup.raisesOther =>
        { healthy := false, running := running, writes := [] }

/-- A handle counts as dead in `get_running_bots` when its poll returns
an exit code or raises (the `except Exception` branch also appends the
bot to `dead_bots`). -/
def pollDead (h : Handle) : Bool :=
  match h.poll with
  | PollRes.alive => false
  | PollRes.exited _ => true
  | PollRes.raises => true

structure GrbResult where
  ids : List Int
  running : RunMap
  writes : List DbWrite
  deriving DecidableEq, Repr

/--
The function `get_running_bots`: collect every tracked bot whose poll is dead, delete
them, write a best-effort `'Process died unexpectedly'` error for each,
and return the keys that remain, in insertion order.
-/
def getRunningBots (running : RunMap) (dbFails : Bool) : GrbResult :=
  let alive := running.filter (fun p => !pollDead p.2)
  let deadIds := (running.filter (fun p => pollDead p.2)).map Prod.fst
  { ids := alive.map Prod.fst
    running := alive
    writes :=
      if dbFails then []
      else deadIds.map
        (fun b => DbWrite.status b "error" (some "Process died unexpectedly")) }

structure DeployResult where
  ok : Bool
  running : RunMap
  writes : List DbWrite
  deriving DecidableEq, Repr

/--
Environment for one `deploy_user_bot` call: whether
`config_generator.generate_config` returned a path, whether
`_initialize_bot_database` raised, and the spawn environment.
-/
structure DeployEnv where
  configGenOk : Bool
  dbInitRaises : Bool
  spawn : SpawnEnv
  deriving DecidableEq, Repr

/--
The function `deploy_user_bot`: a failed config generation returns `False` with no
writes; an exception from the bot-database initialisation is caught at
the outer handler, which writes a best-effort `error` status carrying
`str(e)` (modelled as the marker text) and returns `False`; otherwise the
config/database paths are persisted best-effort, `_start_bot_process`
runs, and success persists the process id and `active` while failure
persists `'Failed to start process'`.
-/
def deployUserBot (running : RunMap) (botId : Int) (env : DeployEnv)
    (dbFails : Bool) : DeployResult :=
  if !env.configGenOk then
    { ok := false, running := running, writes := [] }
  else if env.dbInitRaises then
    { ok := false
      running := running
      writes := tryWrite dbFails (DbWrite.status botId "error" (some "<exception text>")) }
  else
    let w0 := tryWrite dbFails (DbWrite.configPath botId)
    let p := startBotProcess running botId env.spawn
    match p.1 with
    | some pid =>
      { ok := true
        running := p.2
        writes := w0 ++ tryWrite dbFails (DbWrite.processId botId pid) ++
          tryWrite dbFails (DbWrite.status botId "active" none) }
    | none =>
      { ok := false
        running := p.2
        writes := w0 ++
          tryWrite dbFails (DbWrite.status botId "error" (some "Failed to start process")) }

/-- One row of the host process table as `psutil.process_iter` yields it:
pid, process name, command line, and whether reading its info succeeded
(a `NoSuchProcess`/`AccessDenied`/`ZombieProcess` row is skipped). -/
structure ProcEntry where
  pid : Nat
  name : String
  cmdline : List String
  accessible : Bool
  deriving DecidableEq, Repr

/-- Lower-case a string character by character (`str.lower()` for the
ASCII names involved here). -/
def lowerStr (s : String) : String :=
  String.mk (s.data.map Char.toLower)

/-- Does `hay` start with `needle`? -/
def charsStartWith : List Char → List Char → Bool
  | [], _ => true
  | _ :: _, [] => false
  | a :: as, b :: bs => a == b && charsStartWith as bs

/-- Python's `needle in hay` substring test on character lists. -/
def charsContain (needle : List Char) : List Char → Bool
  | [] => needle.isEmpty
  | b :: bs => charsStartWith needle (b :: bs) || charsContain needle bs

/-- Python's `needle in hay` on strings. -/
def strContains (needle hay : String) : Bool :=
  charsContain needle.data hay.data

/-- The discovery filter: a non-empty name containing `python`
(lower-cased) and a non-empty command line whose space-join contains
`user_bot_template.main`. -/
def matchesSignature (p : ProcEntry) : Bool :=
  p.name ≠ "" && strContains "python" (lowerStr p.name) &&
  !p.cmdline.isEmpty &&
  strContains "user_bot_template.main" (String.intercalate " " p.cmdline)

/-- Accumulate decimal digits; any non-digit character fails the parse. -/
def parseNatAux : List Char → Nat → Option Nat
  | [], acc => some acc
  | c :: cs, acc =>
    if c.isDigit then parseNatAux cs (acc * 10 + (c.toNat - 48))
    else none

/-- Python's `int(str)` on the argument strings seen here: an optional
sign followed by at least one decimal digit (whitespace trimming and
digit-group underscores are not modelled). `ValueError` is `none`. -/
def parsePyInt (s : String) : Option Int :=
  match s.data with
  | [] => none
  | c :: cs =>
    if c = '-' then
      match cs with
      | [] => none
      | _ => (parseNatAux cs 0).map (fun n => -(n : Int))
    else if c = '+' then
      match cs with
      | [] => none
      | _ => (parseNatAux cs 0).map (fun n => (n : Int))
    else (parseNatAux (c :: cs) 0).map (fun n => (n : Int))

/--
The bot-id extraction loop of `_discover_running_processes`: scan for an
argument equal to `--bot-id` that has a successor; `int(...)` failure on
the successor continues the scan, success breaks with the value.
-/
def extractBotId : List String → Option Int
  | a :: b :: rest =>
    if a = "--bot-id" then
      match parsePyInt b with
      | some n => some n
      | none => extractBotId (b :: rest)
    else extractBotId (b :: rest)
  | _ => none

/--
The function `_discover_running_processes`: walk the process table and register a
`discoveredHandle` for every accessible python process whose command line
carries the module signature and a parsable, non-zero (`if bot_id:`)
`--bot-id` value.
-/
def discoverRunning (table : List ProcEntry) : RunMap :=
  table.foldl
    (fun acc p =>
      if p.accessible && matchesSignature p then
        match extractBotId p.cmdline with
        | some botId =>
          if botId ≠ 0 then dictInsert acc botId (discoveredHandle p.pid) else acc
        | none => acc
      else acc)
    []

/--
The truthiness of `get_bot_process_info`: `None` exactly when the bot id is not
tracked; every other branch (psutil success, `NoSuchProcess`, any other
exception) returns a non-empty — hence truthy — dict, modelled as
`some ()`.
-/
def getBotProcessInfo (running : RunMap) (botId : Int) : Option Unit :=
  match dictLookup running botId with
  | none => none
  | some _ => some ()

structure RestoreStepResult where
  restartCalled : Bool
  skipped : Bool
  restoredDelta : Nat
  failedDelta : Nat
  writes : List DbWrite
  running : RunMap
  deriving DecidableEq, Repr

/--
The per-record body of `restore_user_bots` in `app.py` for one active
BotRecord: if `get_bot_process_info` is truthy, skip (`continue`);
otherwise, if the config file is missing on disk, write the
`'Config file missing'` error status and count a failure without
restarting; otherwise call `restart_bot` and count its outcome.
-/
def restoreBotStep (running : RunMap) (botId : Int) (configOnDisk : Bool)
    (renv : RestartEnv) (dbFails : Bool) : RestoreStepResult :=
  match getBotProcessInfo running botId with
  | some _ =>
    { restartCalled := false, skipped := true, restoredDelta := 0,
      failedDelta := 0, writes := [], running := running }
  | none =>
    if !configOnDisk then
      { restartCalled := false, skipped := false, restoredDelta := 0,
        failedDelta := 1
        writes := tryWrite dbFails (DbWrite.status botId "error" (some "Config file missing"))
        running := running }
    else
      let r := restartBot running botId renv dbFails
      { restartCalled := true, skipped := false
        restoredDelta := if r.ok then 1 else 0
        failedDelta := if r.ok then 0 else 1
        writes := r.writes
        running := r.running }

/-! Association-list facts used by the theorems below. -/

theorem dictDelete_sublist (m : RunMap) (k : Int) :
    List.Sublist (dictDelete m k) m := by
  induction m with
  | nil => simp [dictDelete]
  | cons p rest ih =>
    obtain ⟨k1, v1⟩ := p
    by_cases hk : k1 = k
    · simpa [dictDelete, hk] using List.Sublist.cons _ ih
    · simpa [dictDelete, hk] using List.Sublist.cons₂ (k1, v1) ih

theorem dictWF_dictDelete {m : RunMap} (k : Int) (h : DictWF m) :
    DictWF (dictDelete m k) :=
  List.Nodup.sublist (List.Sublist.map Prod.fst (dictDelete_sublist m k)) h

theorem dictLookup_dictDelete_self (m : RunMap) (k : Int) :
    dictLookup (dictDelete m k) k = none := by
  induction m with
  | nil => simp [dictDelete, dictLookup]
  | cons p rest ih =>
    obtain ⟨k1, v1⟩ := p
    by_cases hk : k1 = k
    · simpa [dictDelete, hk] using ih
    · simpa [dictDelete, dictLookup, hk] using ih

theorem keys_dictInsert (m : RunMap) (k : Int) (v : Handle) :
    (dictInsert m k v).map Prod.fst =
      if k ∈ m.map Prod.fst then m.map Prod.fst else m.map Prod.fst ++ [k] := by
  induction m with
  | nil => simp [dictInsert]
  | cons p rest ih =>
    obtain ⟨k1, v1⟩ := p
    by_cases hk : k1 = k
    · simp [dictInsert, hk]
    · by_cases hmem : k ∈ rest.map Prod.fst
      · simp [dictInsert, hk, hmem, ih, Ne.symm hk]
      · simp [dictInsert, hk, hmem, ih, Ne.symm hk]

theorem dictWF_dictInsert {m : RunMap} (k : Int) (v : Handle) (h : DictWF m) :
    DictWF (dictInsert m k v) := by
  unfold DictWF
  rw [keys_dictInsert]
  by_cases hmem : k ∈ m.map Prod.fst
  · simpa [hmem] using h
  · rw [if_neg hmem, List.nodup_append]
    refine ⟨h, List.nodup_singleton k, ?_⟩
    intro a ha hak
    rw [List.mem_singleton] at hak
    exact hmem (hak ▸ ha)

theorem dictLookup_mem {m : RunMap} {k : Int} {v : Handle}
    (h : dictLookup m k = some v) : (k, v) ∈ m := by
  induction m with
  | nil => simp [dictLookup] at h
  | cons p rest ih =>
    obtain ⟨k1, v1⟩ := p
    by_cases hk : k1 = k
    · subst hk
      simp [dictLookup] at h
      simp [h]
    · simp [dictLookup, hk] at h
      exact List.mem_cons_of_mem _ (ih h)

theorem dictLookup_eq_none {m : RunMap} {k : Int}
    (h : ∀ p ∈ m, p.1 ≠ k) : dictLookup m k = none := by
  induction m with
  | nil => simp [dictLookup]
  | cons p rest ih =>
    obtain ⟨k1, v1⟩ := p
    have hk : k1 ≠ k := h (k1, v1) (List.mem_cons_self _ _)
    simp only [dictLookup, hk, if_false]
    exact ih fun q hq => h q (List.mem_cons_of_mem _ hq)

theorem dictLookup_unique {m : RunMap} {k : Int} {v : Handle}
    (hwf : DictWF m) (h : dictLookup m k = some v) :
    ∀ p ∈ m, p.1 = k → p = (k, v) := by
  induction m with
  | nil => simp
  | cons q rest ih =>
    obtain ⟨k1, v1⟩ := q
    intro p hp hpk
    have hcons : (k1 :: rest.map Prod.fst).Nodup := by simpa [DictWF] using hwf
    have hwf1 : k1 ∉ rest.map Prod.fst := (List.nodup_cons.mp hcons).1
    have hwfr : DictWF rest := (List.nodup_cons.mp hcons).2
    by_cases hk : k1 = k
    · subst hk
      have hv : v1 = v := by simpa [dictLookup] using h
      subst hv
      rcases List.mem_cons.mp hp with hph | hpr
      · simpa using hph
      · exfalso
        exact hwf1 (by simpa [hpk] using List.mem_map_of_mem Prod.fst hpr)
    · have hr : dictLookup rest k = some v := by simpa [dictLookup, hk] using h
      rcases List.mem_cons.mp hp with hph | hpr
      · exfalso
        apply hk
        have : p.1 = k1 := by simp [hph]
        rw [← this, hpk]
      · exact ih hwfr hr p hpr hpk

theorem dictWF_startFresh {m : RunMap} (botId : Int) (env : SpawnEnv)
    (h : DictWF m) : DictWF (startFresh m botId env).2 := by
  unfold startFresh
  repeat' split
  all_goals first
    | exact h
    | exact dictWF_dictInsert _ _ h

theorem dictWF_startBotProcess {m : RunMap} (botId : Int) (env : SpawnEnv)
    (h : DictWF m) : DictWF (startBotProcess m botId env).2 := by
  unfold startBotProcess
  repeat' split
  all_goals first
    | exact h
    | exact dictWF_startFresh _ _ h
    | exact dictWF_startFresh _ _ (dictWF_dictDelete _ h)

theorem dictWF_stopBot {m : RunMap} (botId : Int) (os : StopOsOutcome)
    (df : Bool) (h : DictWF m) : DictWF (stopBot m botId os df).running := by
  unfold stopBot
  repeat' split
  all_goals first
    | exact h
    | exact dictWF_dictDelete _ h

theorem dictWF_restartBot {m : RunMap} (botId : Int) (env : RestartEnv)
    (df : Bool) (h : DictWF m) : DictWF (restartBot m botId env df).running := by
  have hs := dictWF_stopBot botId env.stopOs df h
  have hp := dictWF_startBotProcess botId env.spawn hs
  unfold restartBot
  by_cases hc : env.spawn.configExists
  · cases hq : (startBotProcess (stopBot m botId env.stopOs df).running botId env.spawn).1 <;>
      simp_all
  · simp_all

theorem dictWF_deployUserBot {m : RunMap} (botId : Int) (env : DeployEnv)
    (df : Bool) (h : DictWF m) : DictWF (deployUserBot m botId env df).running := by
  have hp := dictWF_startBotProcess botId env.spawn h
  unfold deployUserBot
  by_cases hc : env.configGenOk
  · by_cases hd : env.dbInitRaises
    · simp_all
    · cases hq : (startBotProcess m botId env.spawn).1 <;> simp_all
  · simp_all

/-! Concrete fixtures used by the witnesses. -/

def handleA : Handle := { pid := 123, discovered := false, poll := PollRes.alive }

def handleDead : Handle := { pid := 124, discovered := false, poll := PollRes.exited 1 }

def mapA : RunMap := [((7 : Int), handleA)]

def envOkSpawn : SpawnEnv :=
  { configExists := true, configReadable := true, smokeTest := some 0,
    logFilesOk := true, popenOk := true, newPid := 555, exitSecond := none }

def envNoConfig : SpawnEnv :=
  { configExists := false, configReadable := true, smokeTest := some 0,
    logFilesOk := true, popenOk := true, newPid := 555, exitSecond := none }

def denvA : DeployEnv :=
  { configGenOk := true, dbInitRaises := false, spawn := envOkSpawn }

def renvA : RestartEnv := { stopOs := StopOsOutcome.graceful, spawn := envOkSpawn }

def renvNoConfig : RestartEnv :=
  { stopOs := StopOsOutcome.graceful, spawn := envNoConfig }

/--
Claim C1: if a bot id is already tracked and its handle polls alive,
`_start_bot_process` returns the existing process id and leaves the map
untouched; and since the map is a dict with unique keys, repeated
deploy/spawn/restart/stop calls keep at most one tracked handle per bot
id.
-/
theorem spawn_idempotent_at_most_one_live :
    (∀ (running : RunMap) (botId : Int) (h : Handle) (env : SpawnEnv),
        dictLookup running botId = some h → h.poll = PollRes.alive →
        startBotProcess running botId env = (some h.pid, running)) ∧
    (∀ (running : RunMap) (botId : Int) (senv : SpawnEnv) (denv : DeployEnv)
        (renv : RestartEnv) (os : StopOsOutcome) (df : Bool),
        DictWF running →
        DictWF (startBotProcess running botId senv).2 ∧
        DictWF (deployUserBot running botId denv df).running ∧
        DictWF (restartBot running botId renv df).running ∧
        DictWF (stopBot running botId os df).running) := by
  constructor
  · intro running botId h env hlook hpoll
    simp [startBotProcess, hlook, hpoll]
  · intro running botId senv denv renv os df hwf
    exact ⟨dictWF_startBotProcess botId senv hwf,
      dictWF_deployUserBot botId denv df hwf,
      dictWF_restartBot botId renv df hwf,
      dictWF_stopBot botId os df hwf⟩

/-- Witness for C1 at a concrete tracked live handle. -/
theorem spawn_idempotent_at_most_one_live_witness :
    startBotProcess mapA 7 envOkSpawn = (some handleA.pid, mapA) ∧
    DictWF (restartBot mapA 7 renvA false).running :=
  ⟨spawn_idempotent_at_most_one_live.1 mapA 7 handleA envOkSpawn (by decide) (by decide),
   (spawn_idempotent_at_most_one_live.2 mapA 7 envOkSpawn denvA renvA
      StopOsOutcome.graceful false (by decide)).2.2.1⟩

/--
Claim C2: once the pre-launch gates pass (config present and readable,
smoke test exit 0, log files writable, `Popen` succeeded) for an
untracked bot id, `_start_bot_process` registers the handle and returns
the new pid exactly when the process is alive at the immediate poll
(second 0) and at each of the 15 polls at seconds 2, 4, ..., 30; a death
at the immediate poll or inside the window yields `none` and an unchanged
map.
-/
theorem spawn_confirmation_window_gate :
    ∀ (running : RunMap) (botId : Int) (env : SpawnEnv),
      dictLookup running botId = none →
      env.configExists = true → env.configReadable = true →
      env.smokeTest = some 0 → env.logFilesOk = true → env.popenOk = true →
      (survivesWindow env.exitSecond = true ↔
        ∀ i, i < 15 → aliveAtSecond env.exitSecond (2 * (i + 1)) = true) ∧
      ((aliveAtSecond env.exitSecond 0 && survivesWindow env.exitSecond) = true →
        startBotProcess running botId env =
          (some env.newPid,
           dictInsert running botId
             { pid := env.newPid, discovered := false, poll := PollRes.alive })) ∧
      ((aliveAtSecond env.exitSecond 0 && survivesWindow env.exitSecond) = false →
        startBotProcess running botId env = (none, running)) := by
  intro running botId env hlook hce hcr hst hlf hpo
  refine ⟨?_, ?_, ?_⟩
  · simp [survivesWindow, List.all_eq_true, List.mem_range]
  · intro hok
    rw [Bool.and_eq_true] at hok
    simp [startBotProcess, startFresh, hlook, hce, hcr, hst, hlf, hpo, hok.1, hok.2]
  · intro hbad
    cases ha : aliveAtSecond env.exitSecond 0 <;>
      cases hw : survivesWindow env.exitSecond <;>
      simp_all [startBotProcess, startFresh]

/-- Witness for C2: a process that outlives the window is registered. -/
theorem spawn_confirmation_window_gate_witness :
    startBotProcess [] 9 envOkSpawn =
      (some envOkSpawn.newPid,
       dictInsert [] 9
         { pid := envOkSpawn.newPid, discovered := false, poll := PollRes.alive }) :=
  (spawn_confirmation_window_gate [] 9 envOkSpawn (by decide) (by decide) (by decide)
      (by decide) (by decide) (by decide)).2.1 (by decide)

/--
Claim C3: `restart_bot` always stops first (and `stop_bot` succeeds with
no effects when nothing is tracked), then checks the config file; a
missing config persists an `error` status (`'Config file not found'`) and
fails without launching, otherwise `_start_bot_process` runs and the
outcome is persisted as `active` plus the new pid, or as an `error`.
-/
theorem restart_stop_then_config_gate :
    (∀ (running : RunMap) (botId : Int) (os : StopOsOutcome) (df : Bool),
        dictLookup running botId = none →
        stopBot running botId os df =
          { ok := true, running := running, writes := [], signalled := [] }) ∧
    (∀ (running : RunMap) (botId : Int) (env : RestartEnv) (df : Bool),
        env.spawn.configExists = false →
        restartBot running botId env df =
          { ok := false
            running := (stopBot running botId env.stopOs df).running
            writes := (stopBot running botId env.stopOs df).writes ++
              tryWrite df (DbWrite.status botId "error" (some "Config file not found"))
            signalled := (stopBot running botId env.stopOs df).signalled
            spawnAttempted := false }) ∧
    (∀ (running : RunMap) (botId : Int) (env : RestartEnv) (df : Bool) (pid : Nat),
        env.spawn.configExists = true →
        (startBotProcess (stopBot running botId env.stopOs df).running botId env.spawn).1 =
          some pid →
        restartBot running botId env df =
          { ok := true
            running :=
              (startBotProcess (stopBot running botId env.stopOs df).running botId env.spawn).2
            writes := (stopBot running botId env.stopOs df).writes ++
              tryWrite df (DbWrite.processId botId pid) ++
              tryWrite df (DbWrite.status botId "active" none)
            signalled := (stopBot running botId env.stopOs df).signalled
            spawnAttempted := true }) ∧
    (∀ (running : RunMap) (botId : Int) (env : RestartEnv) (df : Bool),
        env.spawn.configExists = true →
        (startBotProcess (stopBot running botId env.stopOs df).running botId env.spawn).1 =
          none →
        restartBot running botId env df =
          { ok := false
            running :=
              (startBotProcess (stopBot running botId env.stopOs df).running botId env.spawn).2
            writes := (stopBot running botId env.stopOs df).writes ++
              tryWrite df (DbWrite.status botId "error" (some "Failed to restart process"))
            signalled := (stopBot running botId env.stopOs df).signalled
            spawnAttempted := true }) := by
  refine ⟨?_, ?_, ?_, ?_⟩
  · intro running botId os df hlook
    simp [stopBot, hlook]
  · intro running botId env df hc
    simp [restartBot, hc]
  · intro running botId env df pid hc hp
    simp [restartBot, hc, hp]
  · intro running botId env df hc hp
    simp [restartBot, hc, hp]

/-- Witness for C3: restarting a tracked bot whose config file vanished
stops it and fails with the persisted config error. -/
theorem restart_stop_then_config_gate_witness :
    restartBot mapA 7 renvNoConfig false =
      { ok := false
        running := (stopBot mapA 7 renvNoConfig.stopOs false).running
        writes := (stopBot mapA 7 renvNoConfig.stopOs false).writes ++
          tryWrite false (DbWrite.status 7 "error" (some "Config file not found"))
        signalled := (stopBot mapA 7 renvNoConfig.stopOs false).signalled
        spawnAttempted := false } :=
  (restart_stop_then_config_gate.2.1 mapA 7 renvNoConfig false (by decide))

/-- A host process table holding one python process launched with the
bot-template signature and `--bot-id 42`. -/
def sampleProcTable : List ProcEntry :=
  [{ pid := 777, name := "python3",
     cmdline := ["python3", "-m", "user_bot_template.main",
                 "--config", "/data/bot_configs/bot_42_config.json",
                 "--bot-id", "42"],
     accessible := true }]

/--
Claim C4, evaluated on the code: the discovery scan does register bot 42
as a discovered handle, but `get_running_bots` then drops it — the
discovered handle's `poll` raises `TypeError` (a zero-parameter lambda
stored in a class dict is called as a bound method), the `except` branch
counts the bot as dead, the entry is deleted and an error status written,
and the returned list is empty instead of containing 42.
-/
theorem discovery_regd_but_listing_drops_it :
    dictLookup (discoverRunning sampleProcTable) 42 = some (discoveredHandle 777) ∧
    (getRunningBots (discoverRunning sampleProcTable) false).ids = [] ∧
    dictLookup (getRunningBots (discoverRunning sampleProcTable) false).running 42 = none ∧
    (getRunningBots (discoverRunning sampleProcTable) false).writes =
      [DbWrite.status 42 "error" (some "Process died unexpectedly")] := by
  decide

/--
Claim C5, evaluated on the code: for a tracked discovered handle,
`check_bot_health` returns unhealthy, not healthy — `process.poll()` on
the discovery mock raises `TypeError` (zero-parameter lambda invoked as a
bound method), which the outer handler turns into `False`; moreover both
handle variants expose a `pid` attribute, so the `hasattr(process, 'pid')`
test that was meant to route discovered handles past resource inspection
can never take the assume-healthy branch.
-/
theorem discovered_handle_health_check_unhealthy :
    checkBotHealth [((42 : Int), discoveredHandle 777)] 42
        (PsLookup.procStatus false 10) false =
      { healthy := false, running := [((42 : Int), discoveredHandle 777)], writes := [] } := by
  decide

/--
Claim C6: `get_running_bots` deletes every tracked handle whose poll
reports an exit, writes the `'Process died unexpectedly'` error status
for it, and returns exactly the keys of the entries that remain.
-/
theorem listing_self_heals :
    ∀ (running : RunMap) (botId : Int) (h : Handle) (c : Int),
      DictWF running →
      dictLookup running botId = some h → h.poll = PollRes.exited c →
      (getRunningBots running false).ids =
        ((getRunningBots running false).running).map Prod.fst ∧
      botId ∉ (getRunningBots running false).ids ∧
      dictLookup (getRunningBots running false).running botId = none ∧
      DbWrite.status botId "error" (some "Process died unexpectedly") ∈
        (getRunningBots running false).writes := by
  intro running botId h c hwf hlook hpoll
  have hdead : pollDead h = true := by simp [pollDead, hpoll]
  have hmem : (botId, h) ∈ running := dictLookup_mem hlook
  have hkeys : ∀ p ∈ (getRunningBots running false).running, p.1 ≠ botId := by
    intro p hp hpk
    have hp2 : p ∈ running ∧ pollDead p.2 = false := by
      simpa [getRunningBots, List.mem_filter] using hp
    have hpe : p = (botId, h) := dictLookup_unique hwf hlook p hp2.1 hpk
    rw [hpe] at hp2
    simp [hdead] at hp2
  refine ⟨rfl, ?_, dictLookup_eq_none hkeys, ?_⟩
  · intro hin
    simp only [getRunningBots, List.mem_map] at hin
    obtain ⟨p, hp, hpk⟩ := hin
    exact hkeys p (by simpa [getRunningBots] using hp) hpk
  · have hdm : (botId, h) ∈ running.filter (fun p => pollDead p.2) :=
      List.mem_filter.mpr ⟨hmem, hdead⟩
    have : botId ∈ (running.filter (fun p => pollDead p.2)).map Prod.fst :=
      List.mem_map_of_mem Prod.fst hdm
    simp only [getRunningBots, if_false, Bool.false_eq_true]
    exact List.mem_map_of_mem _ this

/-- Witness for C6 at a two-entry map with one exited handle. -/
theorem listing_self_heals_witness :
    (getRunningBots [((7 : Int), handleA), ((8 : Int), handleDead)] false).ids =
      ((getRunningBots [((7 : Int), handleA), ((8 : Int), handleDead)] false).running).map
        Prod.fst ∧
    8 ∉ (getRunningBots [((7 : Int), handleA), ((8 : Int), handleDead)] false).ids ∧
    dictLookup
      (getRunningBots [((7 : Int), handleA), ((8 : Int), handleDead)] false).running 8 = none ∧
    DbWrite.status 8 "error" (some "Process died unexpectedly") ∈
      (getRunningBots [((7 : Int), handleA), ((8 : Int), handleDead)] false).writes :=
  listing_self_heals [((7 : Int), handleA), ((8 : Int), handleDead)] 8 handleDead 1
    (by decide) (by decide) (by decide)

/--
Claim C7: for each active BotRecord, `restore_user_bots` skips the bot
when the process-info lookup reports it as tracked, marks it
`error` (`'Config file missing'`) and counts a failure without calling
restart when the config file is absent, and calls `restart_bot`
otherwise.
-/
theorem restoration_per_record :
    (∀ (running : RunMap) (botId : Int) (cfg : Bool) (renv : RestartEnv) (df : Bool),
        getBotProcessInfo running botId = some () →
        restoreBotStep running botId cfg renv df =
          { restartCalled := false, skipped := true, restoredDelta := 0,
            failedDelta := 0, writes := [], running := running }) ∧
    (∀ (running : RunMap) (botId : Int) (renv : RestartEnv),
        getBotProcessInfo running botId = none →
        restoreBotStep running botId false renv false =
          { restartCalled := false, skipped := false, restoredDelta := 0,
            failedDelta := 1
            writes := [DbWrite.status botId "error" (some "Config file missing")]
            running := running }) ∧
    (∀ (running : RunMap) (botId : Int) (renv : RestartEnv) (df : Bool),
        getBotProcessInfo running botId = none →
        (restoreBotStep running botId true renv df).restartCalled = true) := by
  refine ⟨?_, ?_, ?_⟩
  · intro running botId cfg renv df hinfo
    simp [restoreBotStep, hinfo]
  · intro running botId renv hinfo
    simp [restoreBotStep, hinfo, tryWrite]
  · intro running botId renv df hinfo
    simp [restoreBotStep, hinfo]

/-- Witness for C7: a missing config on an untracked bot is flagged
without a restart, and a tracked bot is skipped. -/
theorem restoration_per_record_witness :
    restoreBotStep [] 7 false renvA false =
      { restartCalled := false, skipped := false, restoredDelta := 0,
        failedDelta := 1
        writes := [DbWrite.status 7 "error" (some "Config file missing")]
        running := [] } ∧
    restoreBotStep mapA 7 true renvA false =
      { restartCalled := false, skipped := true, restoredDelta := 0,
        failedDelta := 0, writes := [], running := mapA } :=
  ⟨restoration_per_record.2.1 [] 7 renvA (by decide),
   restoration_per_record.1 mapA 7 true renvA false (by decide)⟩

/-! StatusRegistry failures only suppress writes; they never change an
operation's outcome, map, or signals. -/

theorem stopBot_db_indep (running : RunMap) (botId : Int) (os : StopOsOutcome)
    (b1 b2 : Bool) :
    (stopBot running botId os b1).ok = (stopBot running botId os b2).ok ∧
    (stopBot running botId os b1).running = (stopBot running botId os b2).running ∧
    (stopBot running botId os b1).signalled = (stopBot running botId os b2).signalled := by
  cases hd : dictLookup running botId <;> cases os <;> simp [stopBot, hd]

theorem restartBot_db_indep (running : RunMap) (botId : Int) (env : RestartEnv)
    (b1 b2 : Bool) :
    (restartBot running botId env b1).ok = (restartBot running botId env b2).ok ∧
    (restartBot running botId env b1).running = (restartBot running botId env b2).running ∧
    (restartBot running botId env b1).signalled =
      (restartBot running botId env b2).signalled := by
  obtain ⟨ho, hr, hs⟩ := stopBot_db_indep running botId env.stopOs b1 b2
  by_cases hc : env.spawn.configExists
  · cases hq :
      (startBotProcess (stopBot running botId env.stopOs b2).running botId env.spawn).1 <;>
      simp [restartBot, hc, hr, hs, hq]
  · simp [restartBot, hc, hr, hs]

theorem deployUserBot_db_indep (running : RunMap) (botId : Int) (env : DeployEnv)
    (b1 b2 : Bool) :
    (deployUserBot running botId env b1).ok = (deployUserBot running botId env b2).ok ∧
    (deployUserBot running botId env b1).running =
      (deployUserBot running botId env b2).running := by
  by_cases hc : env.configGenOk
  · by_cases hd : env.dbInitRaises
    · simp [deployUserBot, hc, hd]
    · cases hq : (startBotProcess running botId env.spawn).1 <;>
        simp [deployUserBot, hc, hd, hq]
  · simp [deployUserBot, hc]

theorem checkBotHealth_db_indep (running : RunMap) (botId : Int) (ps : PsLookup)
    (b1 b2 : Bool) :
    (checkBotHealth running botId ps b1).healthy =
      (checkBotHealth running botId ps b2).healthy ∧
    (checkBotHealth running botId ps b1).running =
      (checkBotHealth running botId ps b2).running := by
  cases hd : dictLookup running botId with
  | none => simp [checkBotHealth, hd]
  | some h =>
    cases hp : h.poll with
    | alive =>
      cases ps with
      | noSuch => simp [checkBotHealth, hd, hp]
      | procStatus z mem => cases z <;> simp [checkBotHealth, hd, hp]
      | raisesOther => simp [checkBotHealth, hd, hp]
    | exited c => simp [checkBotHealth, hd, hp]
    | raises => simp [checkBotHealth, hd, hp]

theorem getRunningBots_db_indep (running : RunMap) (b1 b2 : Bool) :
    (getRunningBots running b1).ids = (getRunningBots running b2).ids ∧
    (getRunningBots running b1).running = (getRunningBots running b2).running := by
  simp [getRunningBots]

/--
Claim C8: for deploy, stop, restart, health check, and listing, a failed
StatusRegistry write (all sites are try/except-wrapped best-effort
writes) changes nothing about the operation's returned result, tracked
map, or delivered signals.
-/
theorem persistence_failures_never_propagate :
    ∀ (running : RunMap) (botId : Int) (denv : DeployEnv) (os : StopOsOutcome)
      (renv : RestartEnv) (ps : PsLookup) (b1 b2 : Bool),
      (deployUserBot running botId denv b1).ok = (deployUserBot running botId denv b2).ok ∧
      (deployUserBot running botId denv b1).running =
        (deployUserBot running botId denv b2).running ∧
      (stopBot running botId os b1).ok = (stopBot running botId os b2).ok ∧
      (stopBot running botId os b1).running = (stopBot running botId os b2).running ∧
      (stopBot running botId os b1).signalled = (stopBot running botId os b2).signalled ∧
      (restartBot running botId renv b1).ok = (restartBot running botId renv b2).ok ∧
      (restartBot running botId renv b1).running =
        (restartBot running botId renv b2).running ∧
      (restartBot running botId renv b1).signalled =
        (restartBot running botId renv b2).signalled ∧
      (checkBotHealth running botId ps b1).healthy =
        (checkBotHealth running botId ps b2).healthy ∧
      (checkBotHealth running botId ps b1).running =
        (checkBotHealth running botId ps b2).running ∧
      (getRunningBots running b1).ids = (getRunningBots running b2).ids ∧
      (getRunningBots running b1).running = (getRunningBots running b2).running := by
  intro running botId denv os renv ps b1 b2
  obtain ⟨d1, d2⟩ := deployUserBot_db_indep running botId denv b1 b2
  obtain ⟨s1, s2, s3⟩ := stopBot_db_indep running botId os b1 b2
  obtain ⟨r1, r2, r3⟩ := restartBot_db_indep running botId renv b1 b2
  obtain ⟨h1, h2⟩ := checkBotHealth_db_indep running botId ps b1 b2
  obtain ⟨g1, g2⟩ := getRunningBots_db_indep running b1 b2
  exact ⟨d1, d2, s1, s2, s3, r1, r2, r3, h1, h2, g1, g2⟩

/--
Claim C9: restarting a tracked live bot whose config file is gone first
signals and removes the live process, and only then fails the config
check — the prior running state is destroyed even though the restart
returns failure without attempting a spawn.
-/
theorem restart_not_atomic_on_missing_config :
    ∀ (running : RunMap) (botId : Int) (h : Handle) (renv : RestartEnv) (df : Bool),
      dictLookup running botId = some h → h.poll = PollRes.alive →
      (renv.stopOs = StopOsOutcome.graceful ∨ renv.stopOs = StopOsOutcome.forced) →
      renv.spawn.configExists = false →
      (restartBot running botId renv df).ok = false ∧
      (restartBot running botId renv df).spawnAttempted = false ∧
      dictLookup (restartBot running botId renv df).running botId = none ∧
      botId ∈ (restartBot running botId renv df).signalled := by
  intro running botId h renv df hlook hpoll hos hc
  have hstop : (stopBot running botId renv.stopOs df).running = dictDelete running botId ∧
      (stopBot running botId renv.stopOs df).signalled = [botId] := by
    rcases hos with h1 | h1 <;> simp [stopBot, hlook, h1]
  simp [restartBot, hc, hstop.1, hstop.2, dictLookup_dictDelete_self]

/-- Witness for C9 at a concrete tracked live handle. -/
theorem restart_not_atomic_on_missing_config_witness :
    (restartBot mapA 7 renvNoConfig false).ok = false ∧
    (restartBot mapA 7 renvNoConfig false).spawnAttempted = false ∧
    dictLookup (restartBot mapA 7 renvNoConfig false).running 7 = none ∧
    7 ∈ (restartBot mapA 7 renvNoConfig false).signalled :=
  restart_not_atomic_on_missing_config mapA 7 handleA renvNoConfig false
    (by decide) (by decide) (Or.inl rfl) (by decide)

/--
Claim C10: a live-polling handle whose OS process is a zombie makes
`check_bot_health` return unhealthy while leaving the map and the
StatusRegistry untouched, whereas the exited and no-longer-exists
branches both delete the entry and write a distinct error status.
-/
theorem zombie_branch_frame_preserving :
    (∀ (running : RunMap) (botId : Int) (h : Handle) (memMB : Nat) (df : Bool),
        dictLookup running botId = some h → h.poll = PollRes.alive →
        checkBotHealth running botId (PsLookup.procStatus true memMB) df =
          { healthy := false, running := running, writes := [] }) ∧
    (∀ (running : RunMap) (botId : Int) (h : Handle) (c : Int) (ps : PsLookup) (df : Bool),
        dictLookup running botId = some h → h.poll = PollRes.exited c →
        checkBotHealth running botId ps df =
          { healthy := false
            running := dictDelete running botId
            writes := tryWrite df
              (DbWrite.status botId "error" (some "Process terminated unexpectedly")) }) ∧
    (∀ (running : RunMap) (botId : Int) (h : Handle) (df : Bool),
        dictLookup running botId = some h → h.poll = PollRes.alive →
        checkBotHealth running botId PsLookup.noSuch df =
          { healthy := false
            running := dictDelete running botId
            writes := tryWrite df
              (DbWrite.status botId "error" (some "Process no longer exists")) }) := by
  refine ⟨?_, ?_, ?_⟩
  · intro running botId h memMB df hlook hpoll
    simp [checkBotHealth, hlook, hpoll]
  · intro running botId h c ps df hlook hpoll
    simp [checkBotHealth, hlook, hpoll]
  · intro running botId h df hlook hpoll
    simp [checkBotHealth, hlook, hpoll]

/-- Witness for C10: a zombie leaves everything in place; an exited
handle is removed with an error write. -/
theorem zombie_branch_frame_preserving_witness :
    checkBotHealth mapA 7 (PsLookup.procStatus true 50) false =
      { healthy := false, running := mapA, writes := [] } ∧
    checkBotHealth [((8 : Int), handleDead)] 8 (PsLookup.procStatus false 50) false =
      { healthy := false
        running := dictDelete [((8 : Int), handleDead)] 8
        writes := tryWrite false
          (DbWrite.status 8 "error" (some "Process terminated unexpectedly")) } :=
  ⟨zombie_branch_frame_preserving.1 mapA 7 handleA 50 false (by decide) (by decide),
   zombie_branch_frame_preserving.2.1 [((8 : Int), handleDead)] 8 handleDead 1
     (PsLookup.procStatus false 50) false (by decide) (by decide)⟩

end TgBotSaas
